import Mathlib

/-!
# AutoScraper workflow — shallow embedding and verification

This file embeds the core of `autoscraper_workflow.py` (the AutoScraper
repository) in Lean 4 and proves the specification's claims about it.

The Python program orchestrates four external side-effecting operations:
a Wind terminal data fetch, an openpyxl workbook population, an Excel COM
range screenshot, and an SMTP email send.  External systems (the Wind
terminal, the spreadsheet engine, the COM host, the SMTP server) are
modelled as explicit environment/response records; side effects are
modelled as explicit state passing and event traces; Python exceptions
become `Except PyError`.
-/

set_option autoImplicit false

namespace AutoScraper

/-! ## Python dictionaries as association lists

Python `dict` preserves insertion order; assigning to an existing key
replaces its value in place, assigning a fresh key appends it.  `dictInsert`
mirrors exactly that, and `dictGet` mirrors `d[k]` / `k in d` lookup.
-/

/-- `d[k] = v` on a Python dict: replace in place, or append if fresh. -/
def dictInsert {β : Type} : List (String × β) → String → β → List (String × β)
  | [], k, v => [(k, v)]
  | (k', v') :: rest, k, v =>
    if k' = k then (k, v) :: rest else (k', v') :: dictInsert rest k v

/-- `d.get(k)`: value at the first occurrence of `k`. -/
def dictGet {β : Type} : List (String × β) → String → Option β
  | [], _ => none
  | (k', v') :: rest, k => if k' = k then some v' else dictGet rest k

/-- `k in d`. -/
def dictContains {β : Type} (d : List (String × β)) (k : String) : Bool :=
  (dictGet d k).isSome


/-! ## Scalar data and Python errors -/

/-- A scalar datum as it travels through the pipeline (a Wind data point,
a timestamp, or a pre-existing spreadsheet cell content). -/
inductive Datum where
  | num (n : Int)
  | str (s : String)
  deriving DecidableEq, Repr

/-- The Python exception classes the program can raise, with the payload
each carries.  `runtimeError` is the generic class the repository's own
`raise RuntimeError(...)` statements use; the rest are raised by the
libraries at the external boundaries. -/
inductive PyError where
  | runtimeError (msg : String)
  | indexError
  | keyError (k : String)
  | fileNotFoundError (path : String)
  | smtpAuthenticationError
  | smtpException
  deriving DecidableEq, Repr

/-- The exception class of an error, forgetting its payload — what Python's
`except SomeClass:` can branch on. -/
inductive PyExcClass where
  | runtimeError
  | indexError
  | keyError
  | fileNotFoundError
  | smtpAuthenticationError
  | smtpException
  deriving DecidableEq, Repr

def PyError.classOf : PyError → PyExcClass
  | .runtimeError _ => .runtimeError
  | .indexError => .indexError
  | .keyError _ => .keyError
  | .fileNotFoundError _ => .fileNotFoundError
  | .smtpAuthenticationError => .smtpAuthenticationError
  | .smtpException => .smtpException

/-! ## Wind data access (`WindDataFetcher`) -/

/-- `DataSpec`: the Wind request configuration. -/
structure DataSpec where
  identifier : String
  fields : List String
  start : String
  stop : String
  frequency : String := "D"
  options : Option String := none
  deriving DecidableEq, Repr

/-- The terminal's response to `wind_client.wsd`: an error code, one value
sequence per requested field (positionally), and an optional timestamp
sequence (empty ≙ absent, matching Python truthiness of a list). -/
structure WindResponse where
  ErrorCode : Int
  Data : List (List Datum)
  Times : List Datum
  deriving DecidableEq, Repr

/-- `WindDataFetcher.__init__`: raises `RuntimeError` when the WindPy
client library is unavailable on the host. -/
def WindDataFetcher.init (windAvailable : Bool) : Except PyError Unit :=
  if windAvailable then .ok () else
    .error (.runtimeError
      "WindPy is not available. Install WindPy and run this on a machine with Wind Financial Terminal.")

/-- The payload `fetch` returns: a Python dict from field name to value list. -/
abbrev Payload := List (String × List Datum)

/-- The loop `for idx, field in enumerate(spec.fields): payload[field] = response.Data[idx]`.
An index beyond `Data`'s length raises `IndexError`. -/
def fetchLoop (data : List (List Datum)) :
    List String → Nat → Payload → Except PyError Payload
  | [], _, acc => .ok acc
  | f :: fs, idx, acc =>
    match data[idx]? with
    | none => .error .indexError
    | some row => fetchLoop data fs (idx + 1) (dictInsert acc f row)

/-- `WindDataFetcher.fetch`: raise on a non-zero terminal error code, else
copy each requested field's sequence into the payload positionally and add
the timestamps under `"times"` when the terminal provided any. -/
def WindDataFetcher.fetch (spec : DataSpec) (response : WindResponse) :
    Except PyError Payload := do
  if response.ErrorCode ≠ 0 then
    throw (.runtimeError ("Wind request failed: " ++ toString response.ErrorCode))
  let payload ← fetchLoop response.Data spec.fields 0 []
  if response.Times ≠ [] then
    return dictInsert payload "times" response.Times
  return payload

/-! ## Excel population (`ExcelPopulator`) -/

/-- What a spreadsheet cell can hold after the program runs: its original
content, or a whole value sequence (Python writes the list object into the
anchor cell: `sheet[cell] = payload[key]`). -/
inductive CellValue where
  | blank
  | datum (d : Datum)
  | seq (xs : List Datum)
  deriving DecidableEq, Repr

/-- A worksheet: cell address (e.g. `"B2"`) → content. -/
abbrev Sheet := List (String × CellValue)

/-- A workbook: sheet name → worksheet. -/
abbrev Workbook := List (String × Sheet)

/-- `CellMapping`: which field goes to which workbook / sheet / cell. -/
structure CellMapping where
  workbook_path : String
  sheet_name : String
  mapping : List (String × String)
  deriving DecidableEq, Repr

/-- Reading a cell: openpyxl yields `None` for a never-written cell. -/
def getCell (sheet : Sheet) (addr : String) : CellValue :=
  (dictGet sheet addr).getD .blank

/-- The population loop: for each `(key, cell)` pair of the mapping, write
`payload[key]` into the cell when the key is present, else log one warning
and continue.  Returns the written sheet and the warning log. -/
def populateLoop (payload : Payload) :
    List (String × String) → Sheet → List String → Sheet × List String
  | [], sheet, warnings => (sheet, warnings)
  | (key, cell) :: rest, sheet, warnings =>
    match dictGet payload key with
    | none =>
        populateLoop payload rest sheet
          (warnings ++ ["Payload does not include key " ++ key])
    | some v => populateLoop payload rest (dictInsert sheet cell (.seq v)) warnings

/-- `ExcelPopulator.populate`: open the workbook, select the sheet
(`wb[spec.sheet_name]` raises `KeyError` when absent), run the mapping
loop, save.  Returns the saved workbook, the warning log, and the returned
workbook path. -/
def ExcelPopulator.populate (spec : CellMapping) (payload : Payload) (wb : Workbook) :
    Except PyError (Workbook × List String × String) :=
  match dictGet wb spec.sheet_name with
  | none => .error (.keyError spec.sheet_name)
  | some sheet =>
    let result := populateLoop payload spec.mapping sheet []
    .ok (dictInsert wb spec.sheet_name result.1, result.2, spec.workbook_path)

/-! ## Excel screenshot (`ExcelScreenshotter`) -/

/-- `ScreenshotSpec`: which workbook / sheet / range to capture and where
to put the image. -/
structure ScreenshotSpec where
  workbook_path : String
  sheet_name : String
  range_address : String
  output_path : String
  deriving DecidableEq, Repr

/-- The COM operations `capture` performs on the automation host, in the
order it attempts them. -/
inductive ComEvent where
  | dispatch
  | openWorkbook
  | selectSheet
  | copyPicture
  | addChart
  | paste
  | export
  | deleteChart
  | closeWorkbook
  | quit
  deriving DecidableEq, Repr

/-- Which COM calls the external Excel host lets succeed on this run.
`exportOk = false` models `chart.Chart.Export(...)` returning falsy. -/
structure ComEnv where
  openOk : Bool := true
  sheetOk : Bool := true
  copyOk : Bool := true
  addChartOk : Bool := true
  pasteOk : Bool := true
  exportOk : Bool := true
  deriving DecidableEq, Repr

/-- One fallible COM call: record the attempt; on failure raise and stop. -/
def comStep (ok : Bool) (ev : ComEvent) (e : PyError)
    (rest : Except PyError Unit × List ComEvent) : Except PyError Unit × List ComEvent :=
  if ok then (rest.1, ev :: rest.2) else (.error e, [ev])

/-- The body of the `try:` block in `capture`: open, select sheet, copy the
range as picture, add a chart canvas, paste, export (raising `RuntimeError`
when the export call reports failure), then delete the chart and close the
workbook without saving. -/
def captureBody (spec : ScreenshotSpec) (env : ComEnv) :
    Except PyError Unit × List ComEvent :=
  comStep env.openOk .openWorkbook (.runtimeError "com: open failed") <|
  comStep env.sheetOk .selectSheet (.runtimeError "com: worksheet not found") <|
  comStep env.copyOk .copyPicture (.runtimeError "com: CopyPicture failed") <|
  comStep env.addChartOk .addChart (.runtimeError "com: ChartObjects.Add failed") <|
  comStep env.pasteOk .paste (.runtimeError "com: Paste failed") <|
  comStep env.exportOk .export
    (.runtimeError ("Excel 截图导出失败: " ++ spec.output_path)) <|
  (.ok (), [.deleteChart, .closeWorkbook])

/-- `ExcelScreenshotter.capture`: dispatch the host, run the body under
`try`, and `excel.Quit()` in the `finally` on every exit path.  Returns the
outcome (the output path on success) and the trace of COM calls made. -/
def ExcelScreenshotter.capture (spec : ScreenshotSpec) (env : ComEnv) :
    Except PyError String × List ComEvent :=
  let body := captureBody spec env
  (body.1.map (fun _ => spec.output_path), .dispatch :: body.2 ++ [.quit])

/-! ## Email (`EmailSender`) -/

/-- `EmailSpec`: SMTP endpoint, credentials, recipients and attachments,
with the dataclass's defaults. -/
structure EmailSpec where
  smtp_host : String
  smtp_port : Int
  username : String
  password : String
  recipients : List String
  cc : List String := []
  bcc : List String := []
  subject : String := "AutoScraper Report"
  body : String := "Please find the requested data attached."
  attachments : List String := []
  deriving DecidableEq, Repr

/-- `Path.name`: the final component of a path (what follows the last
separator). -/
def pathName (p : String) : String :=
  String.mk (p.data.foldl (fun acc c => if c = '/' then [] else acc ++ [c]) [])

/-- The observable actions of `EmailSender.send`, in order of attempt:
attachment file reads, then the SMTP session steps. -/
inductive MailEvent where
  | readAttachment (path : String)
  | smtpConnect
  | starttls
  | login
  | sendMessage
  deriving DecidableEq, Repr

/-- Whether this is a network (SMTP-session) action. -/
def MailEvent.isNetwork : MailEvent → Bool
  | .readAttachment _ => false
  | _ => true

/-- What the external SMTP server lets succeed on this run. -/
structure SmtpEnv where
  loginOk : Bool := true
  sendOk : Bool := true
  deriving DecidableEq, Repr

/-- The filesystem visible to `attachment.read_bytes()`: path → bytes.
A path absent from it raises `FileNotFoundError`. -/
abbrev FileSystem := List (String × String)

/-- The attachment loop: read each file's bytes and attach them under the
file's basename; a missing file raises before any later file is read. -/
def readAttachments (fs : FileSystem) :
    List String → Except PyError (List (String × String)) × List MailEvent
  | [] => (.ok [], [])
  | p :: rest =>
    match dictGet fs p with
    | none => (.error (.fileNotFoundError p), [.readAttachment p])
    | some data =>
      let r := readAttachments fs rest
      (r.1.map (fun atts => (pathName p, data) :: atts), .readAttachment p :: r.2)

/-- The MIME message `send` builds and hands to `send_message`. -/
structure BuiltMessage where
  subject : String
  sender : String
  recipients : List String
  cc : List String
  bcc : List String
  body : String
  attachments : List (String × String)
  deriving DecidableEq, Repr

/-- `EmailSender.send`: build the message, read every attachment into it,
then open the SMTP session, `starttls`, `login` (raising
`SMTPAuthenticationError` on rejection) and `send_message` (raising an
`SMTPException` on transport failure).  Returns the sent message and the
trace of actions performed. -/
def EmailSender.send (spec : EmailSpec) (fs : FileSystem) (env : SmtpEnv) :
    Except PyError BuiltMessage × List MailEvent :=
  match readAttachments fs spec.attachments with
  | (.error e, evs) => (.error e, evs)
  | (.ok atts, evs) =>
    let msg : BuiltMessage :=
      { subject := spec.subject, sender := spec.username, recipients := spec.recipients,
        cc := spec.cc, bcc := spec.bcc, body := spec.body, attachments := atts }
    if env.loginOk then
      if env.sendOk then
        (.ok msg, evs ++ [.smtpConnect, .starttls, .login, .sendMessage])
      else
        (.error .smtpException, evs ++ [.smtpConnect, .starttls, .login, .sendMessage])
    else
      (.error .smtpAuthenticationError, evs ++ [.smtpConnect, .starttls, .login])

/-! ## Workflow driver (`Workflow.run`) -/

/-- The run's stages as observable events.  `windStart`/`windStop` are the
`with WindDataFetcher` enter/exit (`w.start()` / `w.stop()`). -/
inductive RunEvent where
  | windStart
  | windFetch
  | windStop
  | populateStage
  | captureStage
  | appendAttachments
  | sendStage
  deriving DecidableEq, Repr

/-- The full canonical stage order of one run. -/
def canonicalRun : List RunEvent :=
  [.windStart, .windFetch, .windStop, .populateStage, .captureStage,
   .appendAttachments, .sendStage]

/-- The external world a run interacts with: terminal response, COM host
behaviour, readable files, SMTP server behaviour. -/
structure RunEnv where
  response : WindResponse
  comEnv : ComEnv
  fs : FileSystem
  smtpEnv : SmtpEnv
  deriving DecidableEq, Repr

/-- The mutable state a run touches: the on-disk workbook at
`cell_mapping.workbook_path`, the screenshot file, the `EmailSpec` (whose
attachment list `run` extends in place), the Wind session counters and the
log of messages actually delivered. -/
structure World where
  workbook : Workbook
  screenshotFile : Option String := none
  emailSpec : EmailSpec
  windStarted : Nat := 0
  windStopped : Nat := 0
  sent : List BuiltMessage := []
  deriving DecidableEq, Repr

/-- `Workflow.run`: fetch inside the `with` block (the session is released
by `__exit__` even when `fetch` raises, then the error propagates), then
populate, capture, append the two produced paths to the email's
attachments, and send.  Any stage's error aborts the rest; nothing is
rolled back. -/
def Workflow.run (data_spec : DataSpec) (cell_mapping : CellMapping)
    (screenshot_spec : ScreenshotSpec) (env : RunEnv) (w : World) :
    Except PyError Unit × World × List RunEvent :=
  let w₁ := { w with windStarted := w.windStarted + 1 }
  match WindDataFetcher.fetch data_spec env.response with
  | .error e =>
    (.error e, { w₁ with windStopped := w₁.windStopped + 1 },
      [.windStart, .windFetch, .windStop])
  | .ok payload =>
    let w₂ := { w₁ with windStopped := w₁.windStopped + 1 }
    match ExcelPopulator.populate cell_mapping payload w₂.workbook with
    | .error e =>
      (.error e, w₂, [.windStart, .windFetch, .windStop, .populateStage])
    | .ok (wb', _warnings, workbook_path) =>
      let w₃ := { w₂ with workbook := wb' }
      match ExcelScreenshotter.capture screenshot_spec env.comEnv with
      | (.error e, _) =>
        (.error e, w₃,
          [.windStart, .windFetch, .windStop, .populateStage, .captureStage])
      | (.ok screenshot_path, _) =>
        let w₄ := { w₃ with
          screenshotFile := some screenshot_path,
          emailSpec := { w₃.emailSpec with
            attachments := w₃.emailSpec.attachments ++ [workbook_path, screenshot_path] } }
        let fs' := dictInsert (dictInsert env.fs workbook_path "xlsx-bytes")
          screenshot_path "png-bytes"
        match EmailSender.send w₄.emailSpec fs' env.smtpEnv with
        | (.error e, _) => (.error e, w₄, canonicalRun)
        | (.ok msg, _) => (.ok (), { w₄ with sent := w₄.sent ++ [msg] }, canonicalRun)

/-! ## Characterizing the population loop -/

/-- Reading a cell of a workbook (`none` when the sheet is absent). -/
def wbGetCell (wb : Workbook) (sname addr : String) : Option CellValue :=
  (dictGet wb sname).map (fun s => getCell s addr)

/-- Apply a list of cell writes to a sheet, in order. -/
def applyWrites (ws : List (String × CellValue)) (s : Sheet) : Sheet :=
  ws.foldl (fun sh cv => dictInsert sh cv.1 cv.2) s

/-- The writes the population loop performs: one per mapping pair whose key
the payload contains, targeting the mapped cell, in mapping order. -/
def writesOf (mapping : List (String × String)) (payload : Payload) :
    List (String × CellValue) :=
  mapping.filterMap (fun kc => (dictGet payload kc.1).map (fun v => (kc.2, CellValue.seq v)))

/-- The warnings the population loop logs: one per mapping pair whose key
the payload lacks, in mapping order. -/
def missingWarnings (mapping : List (String × String)) (payload : Payload) : List String :=
  (mapping.filter (fun kc => !(dictContains payload kc.1))).map
    (fun kc => "Payload does not include key " ++ kc.1)

/-- The value a write list leaves at an address: its last write there. -/
def lastVal : List (String × CellValue) → String → Option CellValue
  | [], _ => none
  | w :: rest, addr =>
    (lastVal rest addr).orElse (fun _ => if w.1 = addr then some w.2 else none)

/-- The payload the fetch loop builds when every index is in range. -/
def fetchFold (data : List (List Datum)) : List String → Nat → Payload → Payload
  | [], _, acc => acc
  | f :: fs, idx, acc => fetchFold data fs (idx + 1) (dictInsert acc f (data[idx]?.getD []))

/-- The exception class of an operation's outcome (`none` when it succeeded). -/
def errClassOf {α : Type} : Except PyError α → Option PyExcClass
  | .error e => some e.classOf
  | .ok _ => none

/-- A concrete request mirroring `run_workflow_example`. -/
def exDataSpec : DataSpec := ⟨"000001.SZ", ["close"], "2024-01-01", "2024-01-10", "D", none⟩

/-- A concrete cell mapping mirroring `run_workflow_example`. -/
def exCellMapping : CellMapping := ⟨"report.xlsx", "Sheet1", [("close", "B2")]⟩

/-- A concrete screenshot spec mirroring `run_workflow_example`. -/
def exScreenshotSpec : ScreenshotSpec := ⟨"report.xlsx", "Sheet1", "A1:F20", "report.png"⟩

/-- A concrete email spec mirroring `run_workflow_example`. -/
def exEmailSpec : EmailSpec :=
  ⟨"smtp.example.com", 587, "bot@example.com", "pw", ["r@example.com"], [], [], "s", "b", []⟩

/-- A concrete initial world: one workbook with an empty `Sheet1`. -/
def exWorld : World := ⟨[("Sheet1", [])], none, exEmailSpec, 0, 0, []⟩

/-- A concrete successful terminal response for `exDataSpec`. -/
def exResponse : WindResponse := ⟨0, [[Datum.num 1]], []⟩

/-! ## Dictionary lemmas -/

theorem dictGet_dictInsert_self {β : Type} (d : List (String × β)) (k : String) (v : β) :
    dictGet (dictInsert d k v) k = some v := by
  induction d with
  | nil => simp [dictInsert, dictGet]
  | cons kv rest ih =>
    obtain ⟨k', v'⟩ := kv
    by_cases h : k' = k <;> simp [dictInsert, dictGet, h, ih]

theorem dictGet_dictInsert_ne {β : Type} (d : List (String × β)) (k k' : String) (v : β)
    (h : k' ≠ k) : dictGet (dictInsert d k v) k' = dictGet d k' := by
  have h' : k ≠ k' := Ne.symm h
  induction d with
  | nil => simp [dictInsert, dictGet, h']
  | cons kv rest ih =>
    obtain ⟨k₀, v₀⟩ := kv
    by_cases h₀ : k₀ = k
    · subst h₀
      simp [dictInsert, dictGet, h']
    · simp [dictInsert, dictGet, h₀, ih]

theorem dictGet_dictInsert_cases {β : Type} (d : List (String × β)) (k k' : String) (v w : β)
    (h : dictGet (dictInsert d k v) k' = some w) :
    (k' = k ∧ w = v) ∨ dictGet d k' = some w := by
  by_cases hk : k' = k
  · subst hk
    rw [dictGet_dictInsert_self] at h
    exact Or.inl ⟨rfl, (Option.some.injEq _ _ ▸ h).symm⟩
  · rw [dictGet_dictInsert_ne d k k' v hk] at h
    exact Or.inr h

theorem dictContains_dictInsert {β : Type} (d : List (String × β)) (k k' : String) (v : β) :
    dictContains (dictInsert d k v) k' = true ↔ k' = k ∨ dictContains d k' = true := by
  by_cases hk : k' = k
  · subst hk
    simp [dictContains, dictGet_dictInsert_self]
  · simp [dictContains, dictGet_dictInsert_ne d k k' v hk, hk]

theorem populateLoop_eq (payload : Payload) (mapping : List (String × String)) :
    ∀ sheet warnings, populateLoop payload mapping sheet warnings =
      (applyWrites (writesOf mapping payload) sheet,
       warnings ++ missingWarnings mapping payload) := by
  induction mapping with
  | nil => intro sheet warnings; simp [populateLoop, applyWrites, writesOf, missingWarnings]
  | cons kc rest ih =>
    intro sheet warnings
    obtain ⟨k, c⟩ := kc
    match hg : dictGet payload k with
    | none =>
      simp only [populateLoop, hg, ih]
      simp [writesOf, missingWarnings, dictContains, hg]
    | some v =>
      simp only [populateLoop, hg, ih]
      simp [writesOf, missingWarnings, dictContains, applyWrites, hg]


theorem getCell_dictInsert_self (s : Sheet) (a : String) (v : CellValue) :
    getCell (dictInsert s a v) a = v := by
  simp [getCell, dictGet_dictInsert_self]

theorem getCell_dictInsert_ne (s : Sheet) (a a' : String) (v : CellValue) (h : a' ≠ a) :
    getCell (dictInsert s a v) a' = getCell s a' := by
  simp [getCell, dictGet_dictInsert_ne s a a' v h]

theorem getCell_applyWrites (ws : List (String × CellValue)) :
    ∀ (s : Sheet) (addr : String),
      getCell (applyWrites ws s) addr = (lastVal ws addr).getD (getCell s addr) := by
  induction ws with
  | nil => intro s addr; simp [applyWrites, lastVal]
  | cons w rest ih =>
    intro s addr
    have hstep : applyWrites (w :: rest) s = applyWrites rest (dictInsert s w.1 w.2) := rfl
    rw [hstep, ih]
    match hl : lastVal rest addr with
    | some v => simp [lastVal, hl, Option.orElse]
    | none =>
      by_cases ha : w.1 = addr
      · subst ha
        simp [lastVal, hl, Option.orElse, getCell_dictInsert_self]
      · have ha' : addr ≠ w.1 := Ne.symm ha
        simp [lastVal, hl, Option.orElse, ha, getCell_dictInsert_ne s w.1 addr w.2 ha']

theorem lastVal_eq_none_of_not_mem (ws : List (String × CellValue)) (addr : String)
    (h : addr ∉ ws.map Prod.fst) : lastVal ws addr = none := by
  induction ws with
  | nil => rfl
  | cons w rest ih =>
    simp only [List.map, List.mem_cons, not_or] at h
    have h1 : w.1 ≠ addr := fun he => h.1 he.symm
    simp [lastVal, ih h.2, h1, Option.orElse]

theorem getCell_applyWrites_not_written (ws : List (String × CellValue)) (s : Sheet)
    (addr : String) (h : addr ∉ ws.map Prod.fst) :
    getCell (applyWrites ws s) addr = getCell s addr := by
  rw [getCell_applyWrites, lastVal_eq_none_of_not_mem ws addr h]
  rfl

theorem getCell_applyWrites_twice (ws : List (String × CellValue)) (s : Sheet)
    (addr : String) :
    getCell (applyWrites ws (applyWrites ws s)) addr = getCell (applyWrites ws s) addr := by
  rw [getCell_applyWrites, getCell_applyWrites]
  cases hl : lastVal ws addr <;> rfl

/-- Equation lemma: when the sheet is found, `populate` applies the writes
of the present keys and logs the missing-key warnings. -/
theorem populate_some (spec : CellMapping) (payload : Payload) (wb : Workbook) (sheet : Sheet)
    (hs : dictGet wb spec.sheet_name = some sheet) :
    ExcelPopulator.populate spec payload wb =
      .ok (dictInsert wb spec.sheet_name (applyWrites (writesOf spec.mapping payload) sheet),
           missingWarnings spec.mapping payload, spec.workbook_path) := by
  simp only [ExcelPopulator.populate, hs, populateLoop_eq, List.nil_append]

/-- Equation lemma: when the sheet is absent, `populate` raises `KeyError`. -/
theorem populate_none (spec : CellMapping) (payload : Payload) (wb : Workbook)
    (hs : dictGet wb spec.sheet_name = none) :
    ExcelPopulator.populate spec payload wb = .error (.keyError spec.sheet_name) := by
  simp only [ExcelPopulator.populate, hs]

/-! ## Claims about `ExcelPopulator.populate` -/

/-- C6: for every CellMapping and FetchResult, a mapping key absent from
the payload never makes `populate` raise — it succeeds, logging exactly one
warning per missing key (in mapping order), leaves the missing key's cell
unwritten (when no present key targets the same cell), and still applies
every write for the present keys. -/
theorem excelPopulator_populate_missing_keys (spec : CellMapping) (payload : Payload)
    (wb : Workbook) (sheet : Sheet) (hs : dictGet wb spec.sheet_name = some sheet) :
    ExcelPopulator.populate spec payload wb =
      .ok (dictInsert wb spec.sheet_name (applyWrites (writesOf spec.mapping payload) sheet),
           missingWarnings spec.mapping payload, spec.workbook_path)
    ∧ ∀ k c, (k, c) ∈ spec.mapping → dictGet payload k = none →
        c ∉ (writesOf spec.mapping payload).map Prod.fst →
        wbGetCell
          (dictInsert wb spec.sheet_name (applyWrites (writesOf spec.mapping payload) sheet))
          spec.sheet_name c = wbGetCell wb spec.sheet_name c := by
  constructor
  · exact populate_some spec payload wb sheet hs
  · intro k c _ _ hnw
    rw [wbGetCell, wbGetCell, hs, dictGet_dictInsert_self]
    simp only [Option.map_some']
    rw [getCell_applyWrites_not_written _ _ _ hnw]

/-- Witness for C6 at a concrete workbook: key `"open"` is missing from the
payload, `populate` succeeds with one warning, and cell `B3` is untouched. -/
theorem excelPopulator_populate_missing_keys_witness :
    ExcelPopulator.populate ⟨"report.xlsx", "Sheet1", [("close", "B2"), ("open", "B3")]⟩
        [("close", [Datum.num 1])] [("Sheet1", [])] =
      .ok ([("Sheet1", [("B2", CellValue.seq [Datum.num 1])])],
           ["Payload does not include key open"], "report.xlsx")
    ∧ wbGetCell [("Sheet1", [("B2", CellValue.seq [Datum.num 1])])] "Sheet1" "B3" =
        wbGetCell [("Sheet1", [])] "Sheet1" "B3" := by
  have h := excelPopulator_populate_missing_keys
    ⟨"report.xlsx", "Sheet1", [("close", "B2"), ("open", "B3")]⟩
    [("close", [Datum.num 1])] [("Sheet1", [])] [] rfl
  exact ⟨h.1.symm.trans (by rfl) |>.symm,
    (h.2 "open" "B3" (by simp) rfl (by decide)).symm.trans (by rfl) |>.symm⟩

/-- C8: `populate` is idempotent — when a first application succeeds, a
second application with the same payload to the resulting workbook succeeds
with the same warnings and the same returned path, and every cell of every
sheet holds the same value after the second application as after the first. -/
theorem excelPopulator_populate_idempotent (spec : CellMapping) (payload : Payload)
    (wb wb₁ : Workbook) (warn : List String) (path : String)
    (h : ExcelPopulator.populate spec payload wb = .ok (wb₁, warn, path)) :
    ∃ wb₂, ExcelPopulator.populate spec payload wb₁ = .ok (wb₂, warn, path) ∧
      ∀ sname addr, wbGetCell wb₂ sname addr = wbGetCell wb₁ sname addr := by
  cases hs : dictGet wb spec.sheet_name with
  | none => rw [populate_none spec payload wb hs] at h; exact absurd h (by simp)
  | some sheet =>
    rw [populate_some spec payload wb sheet hs] at h
    simp only [Except.ok.injEq, Prod.mk.injEq] at h
    obtain ⟨hwb, hwarn, hpath⟩ := h
    refine ⟨dictInsert wb₁ spec.sheet_name
      (applyWrites (writesOf spec.mapping payload)
        (applyWrites (writesOf spec.mapping payload) sheet)), ?_, ?_⟩
    · have hs₁ : dictGet wb₁ spec.sheet_name =
          some (applyWrites (writesOf spec.mapping payload) sheet) := by
        rw [← hwb, dictGet_dictInsert_self]
      rw [populate_some spec payload wb₁ _ hs₁, hwarn, hpath]
    · intro sname addr
      by_cases hn : sname = spec.sheet_name
      · subst hn
        rw [wbGetCell, wbGetCell, dictGet_dictInsert_self, ← hwb, dictGet_dictInsert_self]
        simp only [Option.map_some']
        rw [getCell_applyWrites_twice]
      · rw [wbGetCell, wbGetCell, dictGet_dictInsert_ne _ _ _ _ hn]

/-- Witness for C8 at a concrete workbook: reapplying `populate` to the
populated workbook reproduces it cell for cell. -/
theorem excelPopulator_populate_idempotent_witness :
    ∃ wb₂, ExcelPopulator.populate
        ⟨"report.xlsx", "Sheet1", [("close", "B2"), ("open", "B3")]⟩
        [("close", [Datum.num 1])]
        [("Sheet1", [("B2", CellValue.seq [Datum.num 1])])] =
      .ok (wb₂, ["Payload does not include key open"], "report.xlsx")
      ∧ ∀ sname addr, wbGetCell wb₂ sname addr =
          wbGetCell [("Sheet1", [("B2", CellValue.seq [Datum.num 1])])] sname addr :=
  excelPopulator_populate_idempotent
    ⟨"report.xlsx", "Sheet1", [("close", "B2"), ("open", "B3")]⟩
    [("close", [Datum.num 1])] [("Sheet1", [])]
    [("Sheet1", [("B2", CellValue.seq [Datum.num 1])])]
    ["Payload does not include key open"] "report.xlsx" rfl

/-- C10 (frame effect): `populate` writes only to the cells that the
mapping targets for keys present in the payload, on the mapped sheet; every
other cell of every sheet of the workbook is unchanged. -/
theorem excelPopulator_populate_frame (spec : CellMapping) (payload : Payload)
    (wb wb' : Workbook) (warn : List String) (path : String)
    (h : ExcelPopulator.populate spec payload wb = .ok (wb', warn, path)) :
    ∀ sname addr,
      (sname ≠ spec.sheet_name ∨ addr ∉ (writesOf spec.mapping payload).map Prod.fst) →
      wbGetCell wb' sname addr = wbGetCell wb sname addr := by
  cases hs : dictGet wb spec.sheet_name with
  | none => rw [populate_none spec payload wb hs] at h; exact absurd h (by simp)
  | some sheet =>
    rw [populate_some spec payload wb sheet hs] at h
    simp only [Except.ok.injEq, Prod.mk.injEq] at h
    obtain ⟨hwb, _, _⟩ := h
    intro sname addr hcond
    by_cases hn : sname = spec.sheet_name
    · subst hn
      rcases hcond with hne | hnw
      · exact absurd rfl hne
      · rw [wbGetCell, wbGetCell, ← hwb, dictGet_dictInsert_self, hs]
        simp only [Option.map_some']
        rw [getCell_applyWrites_not_written _ _ _ hnw]
    · rw [wbGetCell, wbGetCell, ← hwb, dictGet_dictInsert_ne _ _ _ _ hn]

/-- Witness for C10 at a concrete workbook: cell `A1` is not targeted by
any present key and keeps its value across `populate`. -/
theorem excelPopulator_populate_frame_witness :
    wbGetCell [("Sheet1", [("B2", CellValue.seq [Datum.num 1])])] "Sheet1" "A1" =
      wbGetCell [("Sheet1", [])] "Sheet1" "A1" :=
  excelPopulator_populate_frame
    ⟨"report.xlsx", "Sheet1", [("close", "B2"), ("open", "B3")]⟩
    [("close", [Datum.num 1])] [("Sheet1", [])]
    [("Sheet1", [("B2", CellValue.seq [Datum.num 1])])]
    ["Payload does not include key open"] "report.xlsx" rfl
    "Sheet1" "A1" (Or.inr (by decide))

/-! ## Characterizing the fetch loop -/


theorem fetchLoop_ok (data : List (List Datum)) :
    ∀ (fields : List String) (idx : Nat) (acc : Payload),
      idx + fields.length ≤ data.length →
      fetchLoop data fields idx acc = .ok (fetchFold data fields idx acc) := by
  intro fields
  induction fields with
  | nil => intro idx acc _; rfl
  | cons f fs ih =>
    intro idx acc h
    simp only [List.length_cons] at h
    have hidx : idx < data.length := by omega
    have hget : data[idx]? = some data[idx] := List.getElem?_eq_getElem hidx
    simp only [fetchLoop, fetchFold, hget, Option.getD_some]
    exact ih (idx + 1) _ (by omega)

theorem fetchFold_contains (data : List (List Datum)) :
    ∀ (fields : List String) (idx : Nat) (acc : Payload) (k : String),
      dictContains (fetchFold data fields idx acc) k = true ↔
        k ∈ fields ∨ dictContains acc k = true := by
  intro fields
  induction fields with
  | nil => intro idx acc k; simp [fetchFold]
  | cons f fs ih =>
    intro idx acc k
    rw [fetchFold, ih, dictContains_dictInsert]
    simp only [List.mem_cons]
    tauto

theorem fetchFold_values (data : List (List Datum)) :
    ∀ (fields : List String) (idx : Nat) (acc : Payload),
      idx + fields.length ≤ data.length →
      ∀ k v, dictGet (fetchFold data fields idx acc) k = some v →
        v ∈ data ∨ dictGet acc k = some v := by
  intro fields
  induction fields with
  | nil => intro idx acc _ k v hv; exact Or.inr hv
  | cons f fs ih =>
    intro idx acc h k v hv
    simp only [List.length_cons] at h
    have hidx : idx < data.length := by omega
    rw [fetchFold] at hv
    rcases ih (idx + 1) _ (by omega) k v hv with hdata | hacc
    · exact Or.inl hdata
    · rcases dictGet_dictInsert_cases acc f k _ v hacc with ⟨_, hveq⟩ | hold
      · subst hveq
        rw [List.getElem?_eq_getElem hidx, Option.getD_some]
        exact Or.inl (List.getElem_mem hidx)
      · exact Or.inr hold

/-- Equation lemma: with a zero error code and one data row per field,
`fetch` returns the positional payload, with the timestamps inserted under
`"times"` when the terminal provided any. -/
theorem fetch_eq_ok (spec : DataSpec) (r : WindResponse) (h0 : r.ErrorCode = 0)
    (hlen : spec.fields.length ≤ r.Data.length) :
    WindDataFetcher.fetch spec r =
      .ok (if r.Times = [] then fetchFold r.Data spec.fields 0 []
           else dictInsert (fetchFold r.Data spec.fields 0 []) "times" r.Times) := by
  have hl := fetchLoop_ok r.Data spec.fields 0 [] (by omega)
  by_cases ht : r.Times = [] <;>
    simp [WindDataFetcher.fetch, h0, hl, ht]

/-- Equation lemma: a non-zero error code makes `fetch` raise a
`RuntimeError` whose message carries the terminal's code. -/
theorem fetch_eq_error (spec : DataSpec) (r : WindResponse) (h0 : r.ErrorCode ≠ 0) :
    WindDataFetcher.fetch spec r =
      .error (.runtimeError ("Wind request failed: " ++ toString r.ErrorCode)) := by
  simp only [WindDataFetcher.fetch]
  rw [if_pos h0]
  rfl

/-! ## Claims about `WindDataFetcher.fetch` -/

/-- C4: `fetch` fails with an error carrying the terminal's code when the
code is non-zero; with a zero code (and one returned row per requested
field, each as long as the timestamp sequence when timestamps are present)
it returns a payload whose keys are exactly the requested fields plus
`"times"` when timestamps were provided, every value as long as the
timestamp sequence. -/
theorem windDataFetcher_fetch_contract (spec : DataSpec) (r : WindResponse) :
    (r.ErrorCode ≠ 0 →
      WindDataFetcher.fetch spec r =
        .error (.runtimeError ("Wind request failed: " ++ toString r.ErrorCode)))
    ∧ (r.ErrorCode = 0 → r.Data.length = spec.fields.length →
      (∀ row ∈ r.Data, r.Times ≠ [] → row.length = r.Times.length) →
      ∃ payload, WindDataFetcher.fetch spec r = .ok payload ∧
        (∀ k, dictContains payload k = true ↔
          (k ∈ spec.fields ∨ (k = "times" ∧ r.Times ≠ []))) ∧
        (∀ k v, dictGet payload k = some v → r.Times ≠ [] →
          v.length = r.Times.length)) := by
  constructor
  · exact fetch_eq_error spec r
  · intro h0 hlen hrows
    rw [fetch_eq_ok spec r h0 (le_of_eq hlen.symm)]
    refine ⟨_, rfl, ?_, ?_⟩
    · intro k
      by_cases ht : r.Times = []
      · rw [if_pos ht, fetchFold_contains]
        simp [ht, dictContains, dictGet]
      · rw [if_neg ht, dictContains_dictInsert, fetchFold_contains]
        simp only [dictContains, dictGet, Option.isSome_none, Bool.false_eq_true, or_false]
        tauto
    · intro k v hv ht
      rw [if_neg ht] at hv
      rcases dictGet_dictInsert_cases _ _ _ _ _ hv with ⟨_, hveq⟩ | hold
      · subst hveq; rfl
      · rcases fetchFold_values r.Data spec.fields 0 []
          (by omega) k v hold with hdata | habs
        · exact hrows v hdata ht
        · simp [dictGet] at habs

/-- Witness for C4: a non-zero code of 42 raises carrying 42; a zero code
with two fields returns a payload keyed by both fields and `"times"`. -/
theorem windDataFetcher_fetch_contract_witness :
    (WindDataFetcher.fetch
        ⟨"000001.SZ", ["open", "close"], "2024-01-01", "2024-01-10", "D", none⟩
        ⟨42, [], []⟩ =
      .error (.runtimeError ("Wind request failed: " ++ toString (42 : Int))))
    ∧ ∃ payload, WindDataFetcher.fetch
        ⟨"000001.SZ", ["open", "close"], "2024-01-01", "2024-01-10", "D", none⟩
        ⟨0, [[Datum.num 1], [Datum.num 2]], [Datum.str "2024-01-02"]⟩ = .ok payload ∧
        (∀ k, dictContains payload k = true ↔
          (k ∈ ["open", "close"] ∨ (k = "times" ∧ [Datum.str "2024-01-02"] ≠ []))) ∧
        (∀ k v, dictGet payload k = some v → [Datum.str "2024-01-02"] ≠ [] →
          v.length = [Datum.str "2024-01-02"].length) :=
  ⟨(windDataFetcher_fetch_contract
      ⟨"000001.SZ", ["open", "close"], "2024-01-01", "2024-01-10", "D", none⟩
      ⟨42, [], []⟩).1 (by decide),
   (windDataFetcher_fetch_contract
      ⟨"000001.SZ", ["open", "close"], "2024-01-01", "2024-01-10", "D", none⟩
      ⟨0, [[Datum.num 1], [Datum.num 2]], [Datum.str "2024-01-02"]⟩).2
     (by decide) (by decide) (by decide)⟩

/-- C9: when the requested field list contains `"times"` and the terminal
supplies timestamps, the payload's `"times"` key holds the timestamp
sequence — the timestamp insertion silently overwrites the data row that
was fetched for the requested `"times"` field. -/
theorem windDataFetcher_fetch_times_override (spec : DataSpec) (r : WindResponse)
    (h0 : r.ErrorCode = 0) (hlen : spec.fields.length ≤ r.Data.length)
    (ht : r.Times ≠ []) (_hf : "times" ∈ spec.fields) :
    ∃ payload, WindDataFetcher.fetch spec r = .ok payload ∧
      dictGet payload "times" = some r.Times := by
  rw [fetch_eq_ok spec r h0 hlen, if_neg ht]
  exact ⟨_, rfl, dictGet_dictInsert_self _ _ _⟩

/-- Witness for C9: field `"times"` is requested and its fetched data row
`[7]` is overwritten by the timestamp sequence. -/
theorem windDataFetcher_fetch_times_override_witness :
    ∃ payload, WindDataFetcher.fetch
        ⟨"000001.SZ", ["times", "close"], "2024-01-01", "2024-01-10", "D", none⟩
        ⟨0, [[Datum.num 7], [Datum.num 8]], [Datum.str "2024-01-02"]⟩ = .ok payload ∧
      dictGet payload "times" = some [Datum.str "2024-01-02"] :=
  windDataFetcher_fetch_times_override
    ⟨"000001.SZ", ["times", "close"], "2024-01-01", "2024-01-10", "D", none⟩
    ⟨0, [[Datum.num 7], [Datum.num 8]], [Datum.str "2024-01-02"]⟩
    (by decide) (by decide) (by decide) (by decide)

/-! ## Claims about `ExcelScreenshotter.capture` -/

/-- C5: `capture` never leaves the automation host running — on every exit
path (any combination of COM call outcomes, including a failed export) the
very last COM action is `excel.Quit()`. -/
theorem excelScreenshotter_capture_always_quits (spec : ScreenshotSpec) (env : ComEnv) :
    ((ExcelScreenshotter.capture spec env).2).getLast? = some ComEvent.quit := by
  show (ComEvent.dispatch :: ((captureBody spec env).2 ++ [ComEvent.quit])).getLast? =
    some ComEvent.quit
  rw [← List.cons_append, List.getLast?_append_cons]
  rfl

/-- C2 counterexample: when the export call reports failure, `capture`
propagates the error after only quitting the host — the transient chart is
never deleted and the workbook is never closed, refuting the claimed
cleanup ordering on every error path. -/
theorem capture_export_failure_skips_chart_cleanup :
    (ExcelScreenshotter.capture ⟨"report.xlsx", "Sheet1", "A1:F20", "report.png"⟩
        { exportOk := false }).1 =
      .error (.runtimeError ("Excel 截图导出失败: report.png"))
    ∧ ComEvent.deleteChart ∉
        (ExcelScreenshotter.capture ⟨"report.xlsx", "Sheet1", "A1:F20", "report.png"⟩
          { exportOk := false }).2
    ∧ ComEvent.closeWorkbook ∉
        (ExcelScreenshotter.capture ⟨"report.xlsx", "Sheet1", "A1:F20", "report.png"⟩
          { exportOk := false }).2 :=
  ⟨rfl, by decide, by decide⟩

/-- C2 (amended): on the success path `capture` deletes the chart, closes
the workbook without saving, then quits the host, in that order; on every
error path only the quit is performed — the chart is not deleted and the
workbook is not closed before the host quits. -/
theorem excelScreenshotter_capture_cleanup_order (spec : ScreenshotSpec) (env : ComEnv) :
    ((ExcelScreenshotter.capture spec env).1 = .ok spec.output_path →
      (ExcelScreenshotter.capture spec env).2 =
        [.dispatch, .openWorkbook, .selectSheet, .copyPicture, .addChart, .paste,
         .export, .deleteChart, .closeWorkbook, .quit])
    ∧ (∀ e, (ExcelScreenshotter.capture spec env).1 = .error e →
      ComEvent.deleteChart ∉ (ExcelScreenshotter.capture spec env).2 ∧
      ComEvent.closeWorkbook ∉ (ExcelScreenshotter.capture spec env).2 ∧
      ((ExcelScreenshotter.capture spec env).2).getLast? = some ComEvent.quit) := by
  obtain ⟨o, s, cp, ac, pa, ex⟩ := env
  cases o <;> cases s <;> cases cp <;> cases ac <;> cases pa <;> cases ex <;>
    simp [ExcelScreenshotter.capture, captureBody, comStep, Except.map]

/-- Witness for C2's amended claim: the success-path trace at an all-ok
host, and the error-path facts when the export call fails. -/
theorem excelScreenshotter_capture_cleanup_order_witness :
    (ExcelScreenshotter.capture ⟨"report.xlsx", "Sheet1", "A1:F20", "report.png"⟩
        {}).2 =
      [.dispatch, .openWorkbook, .selectSheet, .copyPicture, .addChart, .paste,
       .export, .deleteChart, .closeWorkbook, .quit]
    ∧ (ComEvent.deleteChart ∉
        (ExcelScreenshotter.capture ⟨"report.xlsx", "Sheet1", "A1:F20", "report.png"⟩
          { exportOk := false }).2
      ∧ ComEvent.closeWorkbook ∉
        (ExcelScreenshotter.capture ⟨"report.xlsx", "Sheet1", "A1:F20", "report.png"⟩
          { exportOk := false }).2
      ∧ ((ExcelScreenshotter.capture ⟨"report.xlsx", "Sheet1", "A1:F20", "report.png"⟩
          { exportOk := false }).2).getLast? = some ComEvent.quit) :=
  ⟨(excelScreenshotter_capture_cleanup_order
      ⟨"report.xlsx", "Sheet1", "A1:F20", "report.png"⟩ {}).1 rfl,
   (excelScreenshotter_capture_cleanup_order
      ⟨"report.xlsx", "Sheet1", "A1:F20", "report.png"⟩ { exportOk := false }).2
     (.runtimeError ("Excel 截图导出失败: report.png")) rfl⟩

/-! ## Claim about the error taxonomy -/


/-- C3 counterexample: three different failure kinds — WindPy unavailable,
a non-zero terminal status, and a failed image export — all surface as the
one generic `RuntimeError` class, so the failure kinds do not each get a
distinct error type. -/
theorem failure_kinds_share_generic_error :
    errClassOf (WindDataFetcher.init false) = some .runtimeError
    ∧ errClassOf (WindDataFetcher.fetch
        ⟨"000001.SZ", ["close"], "2024-01-01", "2024-01-10", "D", none⟩
        ⟨-40522003, [], []⟩) = some .runtimeError
    ∧ errClassOf (ExcelScreenshotter.capture
        ⟨"report.xlsx", "Sheet1", "A1:F20", "report.png"⟩ { exportOk := false }).1 =
      some .runtimeError :=
  ⟨rfl, rfl, rfl⟩

/-- C3 (amended): the failures raised at the library boundaries — sheet
absent (`KeyError`), attachment unreadable (`FileNotFoundError`),
authentication rejected (`SMTPAuthenticationError`), delivery failure
(`SMTPException`) — are distinct, identifiable classes, but terminal
unavailable, non-zero terminal status and export failure all surface as the
single generic `RuntimeError` class. -/
theorem failure_kind_error_classes :
    errClassOf (WindDataFetcher.init false) = some .runtimeError
    ∧ errClassOf (WindDataFetcher.fetch
        ⟨"000001.SZ", ["close"], "2024-01-01", "2024-01-10", "D", none⟩
        ⟨-40522003, [], []⟩) = some .runtimeError
    ∧ errClassOf (ExcelScreenshotter.capture
        ⟨"report.xlsx", "Sheet1", "A1:F20", "report.png"⟩ { exportOk := false }).1 =
      some .runtimeError
    ∧ errClassOf (ExcelPopulator.populate ⟨"report.xlsx", "Missing", []⟩ []
        [("Sheet1", [])]) = some .keyError
    ∧ errClassOf (EmailSender.send
        ⟨"smtp.example.com", 587, "bot@example.com", "pw", ["r@example.com"], [], [],
         "s", "b", ["gone.txt"]⟩ [] {}).1 = some .fileNotFoundError
    ∧ errClassOf (EmailSender.send
        ⟨"smtp.example.com", 587, "bot@example.com", "pw", ["r@example.com"], [], [],
         "s", "b", []⟩ [] { loginOk := false }).1 = some .smtpAuthenticationError
    ∧ errClassOf (EmailSender.send
        ⟨"smtp.example.com", 587, "bot@example.com", "pw", ["r@example.com"], [], [],
         "s", "b", []⟩ [] { sendOk := false }).1 = some .smtpException
    ∧ [PyExcClass.runtimeError, .keyError, .fileNotFoundError,
       .smtpAuthenticationError, .smtpException].Pairwise (· ≠ ·) :=
  ⟨rfl, rfl, rfl, rfl, rfl, rfl, rfl, by decide⟩

/-! ## Claims about `EmailSender.send` -/

theorem readAttachments_trace_reads (fs : FileSystem) :
    ∀ (l : List String), ∀ ev ∈ (readAttachments fs l).2, ev.isNetwork = false := by
  intro l
  induction l with
  | nil => intro ev hev; simp [readAttachments] at hev
  | cons p rest ih =>
    intro ev hev
    rw [readAttachments] at hev
    cases hg : dictGet fs p with
    | none =>
      rw [hg] at hev
      simp only [List.mem_singleton] at hev
      subst hev; rfl
    | some data =>
      rw [hg] at hev
      simp only [List.mem_cons] at hev
      rcases hev with hev | hev
      · subst hev; rfl
      · exact ih ev hev

theorem readAttachments_all_present (fs : FileSystem) :
    ∀ (l : List String), (∀ p ∈ l, dictContains fs p = true) →
      ∃ atts, readAttachments fs l = (.ok atts, l.map MailEvent.readAttachment) := by
  intro l
  induction l with
  | nil => intro _; exact ⟨[], rfl⟩
  | cons p rest ih =>
    intro h
    have hp : dictContains fs p = true := h p (List.mem_cons_self p rest)
    rw [dictContains, Option.isSome_iff_exists] at hp
    obtain ⟨data, hg⟩ := hp
    obtain ⟨atts, hrest⟩ := ih (fun q hq => h q (List.mem_cons_of_mem p hq))
    exact ⟨(pathName p, data) :: atts, by rw [readAttachments, hg, hrest]; rfl⟩

theorem readAttachments_missing (fs : FileSystem) :
    ∀ (l : List String), (∃ p ∈ l, dictGet fs p = none) →
      ∃ q, (readAttachments fs l).1 = .error (.fileNotFoundError q) := by
  intro l
  induction l with
  | nil => intro h; simp at h
  | cons p rest ih =>
    intro h
    cases hg : dictGet fs p with
    | none => exact ⟨p, by rw [readAttachments, hg]⟩
    | some data =>
      obtain ⟨q, hq, hqnone⟩ := h
      rcases List.mem_cons.mp hq with rfl | hqrest
      · rw [hg] at hqnone; exact absurd hqnone (by simp)
      · obtain ⟨q', hq'⟩ := ih ⟨q, hqrest, hqnone⟩
        refine ⟨q', ?_⟩
        rw [readAttachments, hg]
        cases hr : (readAttachments fs rest).1 with
        | error e => rw [hr] at hq'; simp only [Except.error.injEq] at hq'
                     simp [hr, Except.map, hq']
        | ok atts => rw [hr] at hq'; exact absurd hq' (by simp)

/-- C7: `send` reads every attachment into the message before opening the
SMTP session: a missing attachment file fails the send with a read error
while no network action has been performed at all, and with every
attachment readable but rejected credentials the send fails with an
authentication error raised at the login step, after connect and starttls
and with no message transmitted. -/
theorem emailSender_send_reads_before_network (spec : EmailSpec) (fs : FileSystem)
    (env : SmtpEnv) :
    ((∃ p ∈ spec.attachments, dictGet fs p = none) →
      (∃ q, (EmailSender.send spec fs env).1 = .error (.fileNotFoundError q)) ∧
      ∀ ev ∈ (EmailSender.send spec fs env).2, ev.isNetwork = false)
    ∧ ((∀ p ∈ spec.attachments, dictContains fs p = true) → env.loginOk = false →
      (EmailSender.send spec fs env).1 = .error .smtpAuthenticationError ∧
      (EmailSender.send spec fs env).2 =
        spec.attachments.map MailEvent.readAttachment ++
          [.smtpConnect, .starttls, .login]) := by
  constructor
  · intro hmiss
    obtain ⟨q, hq⟩ := readAttachments_missing fs spec.attachments hmiss
    have htr := readAttachments_trace_reads fs spec.attachments
    cases hra : readAttachments fs spec.attachments with
    | mk res evs =>
      rw [hra] at hq
      simp only at hq
      subst hq
      constructor
      · exact ⟨q, by rw [EmailSender.send, hra]⟩
      · intro ev hev
        rw [EmailSender.send, hra] at hev
        simp only at hev
        exact htr ev (by rw [hra]; exact hev)
  · intro hall hlogin
    obtain ⟨atts, hra⟩ := readAttachments_all_present fs spec.attachments hall
    rw [EmailSender.send, hra, hlogin]
    exact ⟨rfl, rfl⟩

/-- Witness for C7: a send with one nonexistent attachment fails with a
read error and makes no network call; a send with no attachments and
rejected credentials fails with an authentication error at login. -/
theorem emailSender_send_reads_before_network_witness :
    ((∃ q, (EmailSender.send
        ⟨"smtp.example.com", 587, "bot@example.com", "pw", ["r@example.com"], [], [],
         "s", "b", ["gone.txt"]⟩ [] {}).1 = .error (.fileNotFoundError q)) ∧
      ∀ ev ∈ (EmailSender.send
        ⟨"smtp.example.com", 587, "bot@example.com", "pw", ["r@example.com"], [], [],
         "s", "b", ["gone.txt"]⟩ [] {}).2, ev.isNetwork = false)
    ∧ ((EmailSender.send
        ⟨"smtp.example.com", 587, "bot@example.com", "pw", ["r@example.com"], [], [],
         "s", "b", []⟩ [] { loginOk := false }).1 = .error .smtpAuthenticationError ∧
      (EmailSender.send
        ⟨"smtp.example.com", 587, "bot@example.com", "pw", ["r@example.com"], [], [],
         "s", "b", []⟩ [] { loginOk := false }).2 =
        ([] : List String).map MailEvent.readAttachment ++
          [.smtpConnect, .starttls, .login]) :=
  ⟨(emailSender_send_reads_before_network
      ⟨"smtp.example.com", 587, "bot@example.com", "pw", ["r@example.com"], [], [],
       "s", "b", ["gone.txt"]⟩ [] {}).1 ⟨"gone.txt", by simp, rfl⟩,
   (emailSender_send_reads_before_network
      ⟨"smtp.example.com", 587, "bot@example.com", "pw", ["r@example.com"], [], [],
       "s", "b", []⟩ [] { loginOk := false }).2 (by simp) rfl⟩

/-! ## Claim about `Workflow.run` -/

/-- C1: `run` executes its stages strictly in the canonical order (the
event trace is always a prefix of fetch-within-session, populate, capture,
append attachments, send); the Wind session is acquired and released
exactly once on every path; and whenever a stage fails its error propagates
as the run's result, no later stage's event occurs, and the explicit final
state shows every earlier effect (populated workbook, screenshot file,
extended attachment list) retained, never undone. -/
theorem workflow_run_pipeline (ds : DataSpec) (cm : CellMapping) (ss : ScreenshotSpec)
    (env : RunEnv) (w : World) :
    (∃ k, (Workflow.run ds cm ss env w).2.2 = canonicalRun.take k)
    ∧ ((Workflow.run ds cm ss env w).2.1.windStarted = w.windStarted + 1
       ∧ (Workflow.run ds cm ss env w).2.1.windStopped = w.windStopped + 1)
    ∧ (∀ e, WindDataFetcher.fetch ds env.response = .error e →
        Workflow.run ds cm ss env w =
          (.error e,
           { w with windStarted := w.windStarted + 1, windStopped := w.windStopped + 1 },
           [.windStart, .windFetch, .windStop]))
    ∧ (∀ payload e, WindDataFetcher.fetch ds env.response = .ok payload →
        ExcelPopulator.populate cm payload w.workbook = .error e →
        Workflow.run ds cm ss env w =
          (.error e,
           { w with windStarted := w.windStarted + 1, windStopped := w.windStopped + 1 },
           [.windStart, .windFetch, .windStop, .populateStage]))
    ∧ (∀ payload wb' warn path e,
        WindDataFetcher.fetch ds env.response = .ok payload →
        ExcelPopulator.populate cm payload w.workbook = .ok (wb', warn, path) →
        (ExcelScreenshotter.capture ss env.comEnv).1 = .error e →
        Workflow.run ds cm ss env w =
          (.error e,
           { w with
             workbook := wb',
             windStarted := w.windStarted + 1, windStopped := w.windStopped + 1 },
           [.windStart, .windFetch, .windStop, .populateStage, .captureStage]))
    ∧ (∀ payload wb' warn path sp,
        WindDataFetcher.fetch ds env.response = .ok payload →
        ExcelPopulator.populate cm payload w.workbook = .ok (wb', warn, path) →
        (ExcelScreenshotter.capture ss env.comEnv).1 = .ok sp →
        (∀ e, (EmailSender.send
            { w.emailSpec with attachments := w.emailSpec.attachments ++ [path, sp] }
            (dictInsert (dictInsert env.fs path "xlsx-bytes") sp "png-bytes")
            env.smtpEnv).1 = .error e →
          Workflow.run ds cm ss env w =
            (.error e,
             ⟨wb', some sp,
              { w.emailSpec with attachments := w.emailSpec.attachments ++ [path, sp] },
              w.windStarted + 1, w.windStopped + 1, w.sent⟩,
             canonicalRun))
        ∧ (∀ msg, (EmailSender.send
            { w.emailSpec with attachments := w.emailSpec.attachments ++ [path, sp] }
            (dictInsert (dictInsert env.fs path "xlsx-bytes") sp "png-bytes")
            env.smtpEnv).1 = .ok msg →
          Workflow.run ds cm ss env w =
            (.ok (),
             ⟨wb', some sp,
              { w.emailSpec with attachments := w.emailSpec.attachments ++ [path, sp] },
              w.windStarted + 1, w.windStopped + 1, w.sent ++ [msg]⟩,
             canonicalRun))) := by
  refine ⟨?_, ?_, ?_, ?_, ?_, ?_⟩
  · cases hf : WindDataFetcher.fetch ds env.response with
    | error e => exact ⟨3, by simp only [Workflow.run, hf]; rfl⟩
    | ok payload =>
      cases hp : ExcelPopulator.populate cm payload w.workbook with
      | error e => exact ⟨4, by simp only [Workflow.run, hf, hp]; rfl⟩
      | ok res =>
        obtain ⟨wb', warn, path⟩ := res
        rcases hc : ExcelScreenshotter.capture ss env.comEnv with ⟨cres, ctr⟩
        cases cres with
        | error e => exact ⟨5, by simp only [Workflow.run, hf, hp, hc]; rfl⟩
        | ok sp =>
          rcases hs : EmailSender.send
              { w.emailSpec with attachments := w.emailSpec.attachments ++ [path, sp] }
              (dictInsert (dictInsert env.fs path "xlsx-bytes") sp "png-bytes")
              env.smtpEnv with ⟨sres, str⟩
          cases sres with
          | error e => exact ⟨7, by simp only [Workflow.run, hf, hp, hc, hs]; rfl⟩
          | ok msg => exact ⟨7, by simp only [Workflow.run, hf, hp, hc, hs]; rfl⟩
  · cases hf : WindDataFetcher.fetch ds env.response with
    | error e => simp [Workflow.run, hf]
    | ok payload =>
      cases hp : ExcelPopulator.populate cm payload w.workbook with
      | error e => simp [Workflow.run, hf, hp]
      | ok res =>
        obtain ⟨wb', warn, path⟩ := res
        rcases hc : ExcelScreenshotter.capture ss env.comEnv with ⟨cres, ctr⟩
        cases cres with
        | error e => simp [Workflow.run, hf, hp, hc]
        | ok sp =>
          rcases hs : EmailSender.send
              { w.emailSpec with attachments := w.emailSpec.attachments ++ [path, sp] }
              (dictInsert (dictInsert env.fs path "xlsx-bytes") sp "png-bytes")
              env.smtpEnv with ⟨sres, str⟩
          cases sres with
          | error e => simp [Workflow.run, hf, hp, hc, hs]
          | ok msg => simp [Workflow.run, hf, hp, hc, hs]
  · intro e hf
    simp only [Workflow.run, hf]
  · intro payload e hf hp
    simp only [Workflow.run, hf, hp]
  · intro payload wb' warn path e hf hp hcap
    rcases hc : ExcelScreenshotter.capture ss env.comEnv with ⟨cres, ctr⟩
    rw [hc] at hcap
    simp only at hcap
    subst hcap
    simp only [Workflow.run, hf, hp, hc]
  · intro payload wb' warn path sp hf hp hcap
    rcases hc : ExcelScreenshotter.capture ss env.comEnv with ⟨cres, ctr⟩
    rw [hc] at hcap
    simp only at hcap
    subst hcap
    constructor
    · intro e hsend
      rcases hs : EmailSender.send
          { w.emailSpec with attachments := w.emailSpec.attachments ++ [path, sp] }
          (dictInsert (dictInsert env.fs path "xlsx-bytes") sp "png-bytes")
          env.smtpEnv with ⟨sres, str⟩
      rw [hs] at hsend
      simp only at hsend
      subst hsend
      simp only [Workflow.run, hf, hp, hc, hs]
    · intro msg hsend
      rcases hs : EmailSender.send
          { w.emailSpec with attachments := w.emailSpec.attachments ++ [path, sp] }
          (dictInsert (dictInsert env.fs path "xlsx-bytes") sp "png-bytes")
          env.smtpEnv with ⟨sres, str⟩
      rw [hs] at hsend
      simp only at hsend
      subst hsend
      simp only [Workflow.run, hf, hp, hc, hs]


/-- Witness for C1: the pipeline theorem applied on the example
configuration for a fetch failure, a populate failure (absent sheet), a
capture failure (failed export) and a fully successful run. -/
theorem workflow_run_pipeline_witness :
    Workflow.run exDataSpec exCellMapping exScreenshotSpec ⟨⟨7, [], []⟩, {}, [], {}⟩ exWorld =
      (.error (.runtimeError "Wind request failed: 7"),
       ⟨[("Sheet1", [])], none, exEmailSpec, 1, 1, []⟩,
       [.windStart, .windFetch, .windStop])
    ∧ Workflow.run exDataSpec exCellMapping exScreenshotSpec ⟨exResponse, {}, [], {}⟩
        ⟨[], none, exEmailSpec, 0, 0, []⟩ =
      (.error (.keyError "Sheet1"),
       ⟨[], none, exEmailSpec, 1, 1, []⟩,
       [.windStart, .windFetch, .windStop, .populateStage])
    ∧ Workflow.run exDataSpec exCellMapping exScreenshotSpec
        ⟨exResponse, { exportOk := false }, [], {}⟩ exWorld =
      (.error (.runtimeError "Excel 截图导出失败: report.png"),
       ⟨[("Sheet1", [("B2", CellValue.seq [Datum.num 1])])], none, exEmailSpec, 1, 1, []⟩,
       [.windStart, .windFetch, .windStop, .populateStage, .captureStage])
    ∧ Workflow.run exDataSpec exCellMapping exScreenshotSpec ⟨exResponse, {}, [], {}⟩
        exWorld =
      (.ok (),
       ⟨[("Sheet1", [("B2", CellValue.seq [Datum.num 1])])], some "report.png",
        { exEmailSpec with attachments := ["report.xlsx", "report.png"] }, 1, 1,
        [⟨"s", "bot@example.com", ["r@example.com"], [], [], "b",
          [("report.xlsx", "xlsx-bytes"), ("report.png", "png-bytes")]⟩]⟩,
       canonicalRun) := by
  refine ⟨?_, ?_, ?_, ?_⟩
  · exact (workflow_run_pipeline exDataSpec exCellMapping exScreenshotSpec
      ⟨⟨7, [], []⟩, {}, [], {}⟩ exWorld).2.2.1
      (.runtimeError "Wind request failed: 7") rfl
  · exact (workflow_run_pipeline exDataSpec exCellMapping exScreenshotSpec
      ⟨exResponse, {}, [], {}⟩ ⟨[], none, exEmailSpec, 0, 0, []⟩).2.2.2.1
      [("close", [Datum.num 1])] (.keyError "Sheet1") rfl rfl
  · exact (workflow_run_pipeline exDataSpec exCellMapping exScreenshotSpec
      ⟨exResponse, { exportOk := false }, [], {}⟩ exWorld).2.2.2.2.1
      [("close", [Datum.num 1])] [("Sheet1", [("B2", CellValue.seq [Datum.num 1])])]
      [] "report.xlsx" (.runtimeError "Excel 截图导出失败: report.png") rfl rfl rfl
  · exact ((workflow_run_pipeline exDataSpec exCellMapping exScreenshotSpec
      ⟨exResponse, {}, [], {}⟩ exWorld).2.2.2.2.2
      [("close", [Datum.num 1])] [("Sheet1", [("B2", CellValue.seq [Datum.num 1])])]
      [] "report.xlsx" "report.png" rfl rfl rfl).2
      ⟨"s", "bot@example.com", ["r@example.com"], [], [], "b",
       [("report.xlsx", "xlsx-bytes"), ("report.png", "png-bytes")]⟩ rfl

end AutoScraper
